import Mathlib

/-!
Verification of the booking-lifecycle, inventory and review-aggregation logic
of the rentcar backend.

The JavaScript handlers are shallowly embedded as pure Lean functions over an
explicit database state (`DB`).  Mongo documents become structures, Mongo
queries become `List.find?` / `List.filter` over the stored lists, and every
HTTP handler becomes a function `DB → … → Res × DB` returning the response
and the updated state.  JS numbers are modelled as exact rationals (`ℚ`) and
dates as integer millisecond timestamps (`ℤ`).

The repository contains two independent booking-creation code paths:
the controller `createBooking` (bookingController) and the payments-router
`POST /` handler (routes/payments.js); both are embedded, as are the two
`DELETE /:id` registrations of the payments router and its emergency route.
-/

namespace RentCar

/-- Booking status enumeration of the Booking schema
(`enum: ['pending', 'active', 'completed', 'cancelled']`). -/
inductive BStatus
  | pending
  | active
  | completed
  | cancelled
deriving DecidableEq, BEq, Repr

/-- Payment status enumeration of the Booking schema
(`enum: ['pending', 'paid', 'refunded']`). -/
inductive PayStatus
  | pending
  | paid
  | refunded
deriving DecidableEq, BEq, Repr

/-- Caller role as carried by the JWT (`req.user.role`). -/
inductive Role
  | customer
  | admin
deriving DecidableEq, BEq, Repr

/-- The authenticated caller (`req.user`). -/
structure Caller where
  id : Nat
  role : Role
deriving DecidableEq, Repr

/-- Car document: the fields read or written by the booking and review
logic (`models/Car.js`).  `stock` is an integer with schema bound `min: 0`;
it is modelled as `ℤ` so that non-negativity is a provable property rather
than one imposed by the type. -/
structure Car where
  pricePerDay : ℚ
  availability : Bool
  stock : Int
  rating : ℚ
  numberOfReviews : Nat
deriving DecidableEq, Repr

/-- Embedded additional-service line item snapshotted into a booking
(`additionalServices: [{ serviceId, name, price }]`). -/
structure ServiceLine where
  serviceId : Nat
  name : String
  price : ℚ
deriving DecidableEq, Repr

/-- Booking document (`models/Booking.js`), restricted to the fields the
verified handlers read or write. -/
structure Booking where
  id : Nat
  userId : Nat
  vehicleId : Nat
  startDate : Int
  endDate : Int
  totalAmount : ℚ
  additionalServices : List ServiceLine
  status : BStatus
  paymentStatus : PayStatus
deriving DecidableEq, Repr

/-- Review document (`models/Review.js`): reviewer, car and an (integer)
rating 1–5. -/
structure Review where
  id : Nat
  userId : Nat
  carId : Nat
  rating : Int
deriving DecidableEq, Repr

/-- AdditionalService catalog entry (`models/AdditionalService.js`). -/
structure Service where
  id : Nat
  name : String
  price : ℚ
  isActive : Bool
deriving DecidableEq, Repr

/-- The persistent state: the car, booking, review and service collections.
Cars are keyed by id in an association list. -/
structure DB where
  cars : List (Nat × Car)
  bookings : List Booking
  reviews : List Review
  services : List Service
deriving DecidableEq, Repr

/-- `Car.findById`. -/
def findCar (db : DB) (carId : Nat) : Option Car :=
  (db.cars.find? (fun p => p.1 == carId)).map (fun p => p.2)

/-- Write back an updated car document under its id (`car.save()`). -/
def updateCar (db : DB) (carId : Nat) (c : Car) : DB :=
  { db with cars := db.cars.map (fun p => if p.1 == carId then (carId, c) else p) }

/-- `Booking.findById`. -/
def findBooking (db : DB) (bookingId : Nat) : Option Booking :=
  db.bookings.find? (fun b => b.id == bookingId)

/-- Overwrite the status of the booking with the given id and save it. -/
def setBookingStatus (db : DB) (bookingId : Nat) (st : BStatus) : DB :=
  { db with
    bookings := db.bookings.map
      (fun b => if b.id == bookingId then { b with status := st } else b) }

/-- HTTP response: status code and message. -/
structure Res where
  code : Nat
  message : String
deriving DecidableEq, Repr

/-! ### Booking conflict query (bookingController.createBooking) -/

/-- The `$or` of the Mongo conflict query in `createBooking`: the stored
booking `[bs, be]` matches against the requested `[qs, qe]` when its start
falls inside the request, its end falls inside the request, or it encloses
the request. -/
def mongoOverlap (bs be qs qe : Int) : Bool :=
  (decide (bs ≤ qe) && decide (qs ≤ bs)) ||
  (decide (qs ≤ be) && decide (be ≤ qe)) ||
  (decide (bs ≤ qs) && decide (qe ≤ be))

/-- `Booking.findOne` of the conflict query: same vehicle, status pending or
active, date ranges overlapping per `mongoOverlap`. -/
def conflictingBooking (db : DB) (vehicleId : Nat) (qs qe : Int) : Option Booking :=
  db.bookings.find? (fun b =>
    b.vehicleId == vehicleId &&
    (b.status == BStatus.pending || b.status == BStatus.active) &&
    mongoOverlap b.startDate b.endDate qs qe)

/-! ### Rental duration and totals (bookingController.createBooking) -/

/-- Milliseconds per day, `1000 * 60 * 60 * 24`. -/
def msPerDay : Int := 86400000

/-- `Math.ceil((end - start) / (1000 * 60 * 60 * 24))`: the exact integer
ceiling of the millisecond difference divided by one day.  `Int./` is
floor division, so the ceiling is `-((-x) / d)`. -/
def durationInDays (s e : Int) : Int :=
  -(-(e - s) / msPerDay)

/-- `durationInDays` is the ceiling of the rational day count, i.e. exactly
`Math.ceil` of the quotient. -/
theorem durationInDays_eq_ceil (s e : Int) :
    durationInDays s e = ⌈(((e - s : Int) : ℚ)) / ((86400000 : ℕ) : ℚ)⌉ := by
  have h := Rat.floor_intCast_div_natCast (-(e - s)) 86400000
  rw [Int.cast_neg, neg_div, Int.floor_neg] at h
  have h2 : ⌈(((e - s : Int) : ℚ)) / (((86400000 : ℕ) : ℚ))⌉ = -(-(e - s) / (86400000 : ℤ)) := by
    omega
  rw [h2]
  rfl

/-- Request body of the controller booking-creation path
(`{ vehicleId, startDate, endDate, additionalServices }` plus
`req.user.id`); `serviceIds` holds the `serviceId` of each selected
additional service. -/
structure CreateReqCtrl where
  userId : Nat
  vehicleId : Nat
  startDate : Int
  endDate : Int
  serviceIds : List Nat
deriving DecidableEq, Repr

/-- The catalog rows returned by
`AdditionalService.find({ _id: { $in: serviceIds } })`. -/
def selectedServices (db : DB) (serviceIds : List Nat) : List Service :=
  db.services.filter (fun s => serviceIds.contains s.id)

/-- `services.reduce((sum, service) => sum + service.price, 0)`. -/
def servicesCost (ss : List Service) : ℚ :=
  ss.foldl (fun acc s => acc + s.price) 0

/-- Controller `createBooking` (bookingController): 404 when the vehicle is
absent, 400 when it is unavailable, 400 when the conflict query finds an
overlapping pending/active booking; otherwise computes
`totalAmount = pricePerDay * durationInDays + servicesCost * durationInDays`,
snapshots the selected services and persists a pending booking.  This path
never reads or writes the car's `stock`. -/
def createBooking (db : DB) (req : CreateReqCtrl) (newId : Nat) : Res × DB :=
  match findCar db req.vehicleId with
  | none => (⟨404, "Vehicle not found"⟩, db)
  | some vehicle =>
    if !vehicle.availability then
      (⟨400, "Vehicle is not available for booking"⟩, db)
    else
      match conflictingBooking db req.vehicleId req.startDate req.endDate with
      | some _ => (⟨400, "Vehicle is already booked for these dates"⟩, db)
      | none =>
        let dur : Int := durationInDays req.startDate req.endDate
        let services := selectedServices db req.serviceIds
        let lines := services.map (fun s => ServiceLine.mk s.id s.name s.price)
        let totalAmount : ℚ :=
          vehicle.pricePerDay * (dur : ℚ) + servicesCost services * (dur : ℚ)
        let booking : Booking :=
          { id := newId, userId := req.userId, vehicleId := req.vehicleId
            startDate := req.startDate, endDate := req.endDate
            totalAmount := totalAmount, additionalServices := lines
            status := BStatus.pending, paymentStatus := PayStatus.pending }
        (⟨201, "created"⟩, { db with bookings := db.bookings ++ [booking] })

/-! ### Payments-router booking creation (routes/payments.js, POST /) -/

/-- Request body of the payments-router creation path.  `totalAmount` is
taken verbatim from the client body; locations are modelled by their
presence flags (the handler only checks truthiness). -/
structure CreateReqRoute where
  userId : Nat
  vehicleId : Nat
  startDate : Int
  endDate : Int
  totalAmount : ℚ
  hasPickupLocation : Bool
  hasDropoffLocation : Bool
deriving DecidableEq, Repr

/-- Payments-router `POST /` handler: validates locations, checks the car
exists, is available and has `stock > 0`, decrements the stock (flipping
`availability` to false when it reaches zero), and persists a pending
booking carrying the client-supplied `totalAmount`.  It performs no
date-conflict query. -/
def createBookingRoute (db : DB) (req : CreateReqRoute) (newId : Nat) : Res × DB :=
  if !req.hasPickupLocation || !req.hasDropoffLocation then
    (⟨400, "Invalid location information"⟩, db)
  else
    match findCar db req.vehicleId with
    | none => (⟨404, "Car not found"⟩, db)
    | some car =>
      if !car.availability then
        (⟨400, "This car is not available for booking"⟩, db)
      else if car.stock ≤ 0 then
        (⟨400, "This car is out of stock"⟩, db)
      else
        let newStock := car.stock - 1
        let car' : Car :=
          { car with
            stock := newStock
            availability := if newStock = 0 then false else car.availability }
        let db1 := updateCar db req.vehicleId car'
        let booking : Booking :=
          { id := newId, userId := req.userId, vehicleId := req.vehicleId
            startDate := req.startDate, endDate := req.endDate
            totalAmount := req.totalAmount, additionalServices := []
            status := BStatus.pending, paymentStatus := PayStatus.pending }
        (⟨201, "created"⟩, { db1 with bookings := db1.bookings ++ [booking] })

/-! ### Booking lifecycle routes (routes/payments.js) -/

/-- `GET /:id` of the payments router (and the identical controller
`getBooking`): 404 when absent, 403 when the caller is neither the owner
nor an admin, 200 otherwise.  Read-only. -/
def getBooking (db : DB) (caller : Caller) (bookingId : Nat) : Res :=
  match findBooking db bookingId with
  | none => ⟨404, "Booking not found"⟩
  | some booking =>
    if booking.userId ≠ caller.id ∧ caller.role ≠ Role.admin then
      ⟨403, "You do not have permission to access this booking"⟩
    else
      ⟨200, "ok"⟩

/-- `GET /` listing: admins see every booking, other callers only their
own (`filter.userId = req.user.id`). -/
def getBookings (db : DB) (caller : Caller) : List Booking :=
  if caller.role = Role.admin then db.bookings
  else db.bookings.filter (fun b => b.userId == caller.id)

/-- `PUT /:id/cancel`: after the owner-or-admin check, sets the booking
status to `cancelled` and saves it.  The handler never touches the car
document: no stock restoration, no availability change. -/
def cancelBooking (db : DB) (caller : Caller) (bookingId : Nat) : Res × DB :=
  match findBooking db bookingId with
  | none => (⟨404, "Booking not found"⟩, db)
  | some booking =>
    if booking.userId ≠ caller.id ∧ caller.role ≠ Role.admin then
      (⟨403, "You are not authorized to cancel this booking"⟩, db)
    else
      (⟨200, "ok"⟩, setBookingStatus db bookingId BStatus.cancelled)

/-- `PUT /:id/approve`: sets the status of any existing booking to
`active`.  Beyond authentication there is no role or ownership check and
no check on the current status. -/
def approveBooking (db : DB) (bookingId : Nat) : Res × DB :=
  match findBooking db bookingId with
  | none => (⟨404, "Booking not found"⟩, db)
  | some _ => (⟨200, "ok"⟩, setBookingStatus db bookingId BStatus.active)

/-- `PUT /:id/reject`: sets the status of any existing booking to
`cancelled`; like approve it has no role, ownership or current-status
check. -/
def rejectBooking (db : DB) (bookingId : Nat) : Res × DB :=
  match findBooking db bookingId with
  | none => (⟨404, "Booking not found"⟩, db)
  | some _ => (⟨200, "ok"⟩, setBookingStatus db bookingId BStatus.cancelled)

/-- Controller `updateBooking` (`PUT /api/bookings/:id`): owner-or-admin
gate, then non-admins may only set `cancelled` and only before the booking
starts (`bookingStartDate <= currentDate` is rejected); the requested
status is then written unconditionally — admins can set any status
whatever the current one. -/
def updateBooking (db : DB) (caller : Caller) (bookingId : Nat)
    (newStatus : BStatus) (now : Int) : Res × DB :=
  match findBooking db bookingId with
  | none => (⟨404, "Booking not found"⟩, db)
  | some booking =>
    if booking.userId ≠ caller.id ∧ caller.role ≠ Role.admin then
      (⟨403, "Not authorized to update this booking"⟩, db)
    else if caller.role ≠ Role.admin ∧ booking.startDate ≤ now then
      (⟨400, "Cannot modify or cancel active or past bookings"⟩, db)
    else if caller.role ≠ Role.admin ∧ newStatus ≠ BStatus.cancelled then
      (⟨400, "You can only cancel your booking"⟩, db)
    else
      (⟨200, "ok"⟩, setBookingStatus db bookingId newStatus)

/-- Remove every booking with the given id from the collection
(`Booking.findByIdAndDelete` / `Booking.deleteOne`). -/
def removeBooking (db : DB) (bookingId : Nat) : DB :=
  { db with bookings := db.bookings.filter (fun b => b.id != bookingId) }

/-- First `DELETE /:id` registration (routes/payments.js, the one Express
dispatches to, since the first matching route wins): owner-or-admin check,
then `findByIdAndDelete`.  It does not touch the car: no stock
restoration. -/
def deleteBookingFirst (db : DB) (caller : Caller) (bookingId : Nat) : Res × DB :=
  match findBooking db bookingId with
  | none => (⟨404, "Booking not found"⟩, db)
  | some booking =>
    if booking.userId ≠ caller.id ∧ caller.role ≠ Role.admin then
      (⟨403, "You are not authorized to delete this booking"⟩, db)
    else
      (⟨200, "Booking deleted successfully"⟩, removeBooking db bookingId)

/-- Stock restoration shared by the second delete route and the emergency
route: increment `stock` and re-enable `availability` when it was false
and the stock is now positive.  A missing car is ignored. -/
def restoreCarStock (db : DB) (vehicleId : Nat) : DB :=
  match findCar db vehicleId with
  | none => db
  | some car =>
    let car' : Car :=
      { car with
        stock := car.stock + 1
        availability :=
          if !car.availability ∧ car.stock + 1 > 0 then true else car.availability }
    updateCar db vehicleId car'

/-- Second `DELETE /:id` registration (routes/payments.js, shadowed by the
first): skips every authorization check, deletes the booking and restores
the car's stock by one. -/
def deleteBookingSecond (db : DB) (bookingId : Nat) : Res × DB :=
  match findBooking db bookingId with
  | none => (⟨404, "No booking found with this ID"⟩, db)
  | some booking =>
    let db1 := removeBooking db bookingId
    (⟨200, "Booking cancelled successfully"⟩, restoreCarStock db1 booking.vehicleId)

/-- `DELETE /emergency/:id`: no authentication middleware and no checks;
deletes whatever matches and restores stock when the booking was found.
When nothing matches it still answers 200. -/
def emergencyDeleteBooking (db : DB) (bookingId : Nat) : Res × DB :=
  match findBooking db bookingId with
  | none => (⟨200, "Emergency delete completed"⟩, db)
  | some booking =>
    let db1 := removeBooking db bookingId
    (⟨200, "Emergency delete completed"⟩, restoreCarStock db1 booking.vehicleId)

/-! ### Review aggregation (models/Review.js) -/

/-- `Review.find({ carId })`. -/
def reviewsFor (db : DB) (carId : Nat) : List Review :=
  db.reviews.filter (fun r => r.carId == carId)

/-- `Math.round(x * 10) / 10`: round to one decimal place.  JS
`Math.round` is `⌊x + 1/2⌋` (half rounds toward +∞). -/
def round1 (q : ℚ) : ℚ :=
  ((⌊q * 10 + 1 / 2⌋ : Int) : ℚ) / 10

/-- Sum of the ratings of a list of reviews
(`reviews.reduce((sum, review) => sum + review.rating, 0)`). -/
def sumRatings (rs : List Review) : Int :=
  rs.foldl (fun acc r => acc + r.rating) 0

/-- The average rating `getAverageRating` computes for a car: 0 with no
reviews, otherwise the mean rounded to one decimal. -/
def carAvgRating (db : DB) (carId : Nat) : ℚ :=
  if 0 < (reviewsFor db carId).length then
    round1 ((sumRatings (reviewsFor db carId) : ℚ) / ((reviewsFor db carId).length : ℚ))
  else 0

/-- `ReviewSchema.statics.getAverageRating`: fetch all reviews of the car,
recompute count and rounded average, and write both back onto the car
(`findByIdAndUpdate` is a no-op when the car is absent). -/
def getAverageRating (db : DB) (carId : Nat) : DB :=
  match findCar db carId with
  | none => db
  | some car =>
    updateCar db carId
      { car with
        rating := carAvgRating db carId
        numberOfReviews := (reviewsFor db carId).length }

/-- Fresh review id: Mongo generates a unique `_id` on insert; modelled as
one more than the largest id in the collection. -/
def freshReviewId (db : DB) : Nat :=
  (db.reviews.map (fun r => r.id)).foldr max 0 + 1

/-- Review-creation request body (`{ carId, rating, comment }`). -/
structure ReviewReq where
  carId : Nat
  rating : Int
deriving DecidableEq, Repr

/-- Controller `createReview` (authenticated path): 404 when the car is
absent, 400 when the caller already has a review for this car, otherwise
insert the review; the post-save hook then recomputes the car's
aggregates. -/
def createReview (db : DB) (user : Caller) (req : ReviewReq) : Res × DB :=
  match findCar db req.carId with
  | none => (⟨404, "Car not found"⟩, db)
  | some _ =>
    match db.reviews.find? (fun r => r.userId == user.id && r.carId == req.carId) with
    | some _ => (⟨400, "You have already reviewed this car"⟩, db)
    | none =>
      let r : Review :=
        { id := freshReviewId db, userId := user.id, carId := req.carId
          rating := req.rating }
      let db1 := { db with reviews := db.reviews ++ [r] }
      (⟨201, "created"⟩, getAverageRating db1 req.carId)

/-- Fields of the `findByIdAndUpdate` body spread
(`{ ...req.body, updatedAt }`) that affect the verified state: the body
may carry a new rating and even a new `carId`, both applied verbatim. -/
structure ReviewUpdate where
  rating : Option Int
  carId : Option Nat
deriving DecidableEq, Repr

/-- Apply a body spread to a stored review. -/
def applyReviewUpdate (r : Review) (u : ReviewUpdate) : Review :=
  { r with
    rating := u.rating.getD r.rating
    carId := u.carId.getD r.carId }

/-- Controller `updateReview`: 404 when absent, 403 unless owner or admin,
then `findByIdAndUpdate` with the body spread; the post-findOneAndUpdate
hook recomputes the aggregates of the updated document's `carId`. -/
def updateReview (db : DB) (caller : Caller) (reviewId : Nat)
    (u : ReviewUpdate) : Res × DB :=
  match db.reviews.find? (fun r => r.id == reviewId) with
  | none => (⟨404, "Review not found"⟩, db)
  | some r =>
    if r.userId ≠ caller.id ∧ caller.role ≠ Role.admin then
      (⟨403, "Not authorized to update this review"⟩, db)
    else
      let r' := applyReviewUpdate r u
      let db1 :=
        { db with
          reviews := db.reviews.map (fun x => if x.id == reviewId then r' else x) }
      (⟨200, "ok"⟩, getAverageRating db1 r'.carId)

/-- Controller `deleteReview`: 404 when absent, 403 unless owner or admin,
then `review.remove()`; the post-remove hook recomputes the aggregates of
the removed review's car. -/
def deleteReview (db : DB) (caller : Caller) (reviewId : Nat) : Res × DB :=
  match db.reviews.find? (fun r => r.id == reviewId) with
  | none => (⟨404, "Review not found"⟩, db)
  | some r =>
    if r.userId ≠ caller.id ∧ caller.role ≠ Role.admin then
      (⟨403, "Not authorized to delete this review"⟩, db)
    else
      let db1 := { db with reviews := db.reviews.filter (fun x => x.id != reviewId) }
      (⟨200, "ok"⟩, getAverageRating db1 r.carId)

/-! ### Car admin operations (controllers/carController.js) -/

/-- The stock-relevant part of the admin car update: `findByIdAndUpdate`
with `runValidators: true`, so the schema bound `min: 0` on `stock`
rejects a negative value with a validation error. -/
def updateCarStock (db : DB) (carId : Nat) (newStock : Int) : Res × DB :=
  match findCar db carId with
  | none => (⟨404, "Car not found"⟩, db)
  | some car =>
    if newStock < 0 then
      (⟨400, "Car validation failed"⟩, db)
    else
      (⟨200, "ok"⟩, updateCar db carId { car with stock := newStock })

/-- `PATCH /:id/toggle-availability`: flip the availability flag. -/
def toggleAvailability (db : DB) (carId : Nat) : Res × DB :=
  match findCar db carId with
  | none => (⟨404, "Car not found"⟩, db)
  | some car =>
    (⟨200, "ok"⟩, updateCar db carId { car with availability := !car.availability })

/-! ### Operation type: one constructor per embedded handler -/

/-- A single state-changing request against the backend. -/
inductive Op
  | createCtrl (req : CreateReqCtrl) (newId : Nat)
  | createRoute (req : CreateReqRoute) (newId : Nat)
  | cancel (caller : Caller) (bookingId : Nat)
  | approve (bookingId : Nat)
  | reject (bookingId : Nat)
  | update (caller : Caller) (bookingId : Nat) (newStatus : BStatus) (now : Int)
  | deleteFirst (caller : Caller) (bookingId : Nat)
  | deleteSecond (bookingId : Nat)
  | emergencyDelete (bookingId : Nat)
  | reviewCreate (user : Caller) (req : ReviewReq)
  | reviewUpdate (caller : Caller) (reviewId : Nat) (u : ReviewUpdate)
  | reviewDelete (caller : Caller) (reviewId : Nat)
  | carSetStock (carId : Nat) (newStock : Int)
  | carToggle (carId : Nat)
deriving DecidableEq, Repr

/-- State effect of one operation (the response is dropped). -/
def Op.apply : Op → DB → DB
  | Op.createCtrl req newId, db => (createBooking db req newId).2
  | Op.createRoute req newId, db => (createBookingRoute db req newId).2
  | Op.cancel caller bookingId, db => (cancelBooking db caller bookingId).2
  | Op.approve bookingId, db => (approveBooking db bookingId).2
  | Op.reject bookingId, db => (rejectBooking db bookingId).2
  | Op.update caller bookingId st now, db => (updateBooking db caller bookingId st now).2
  | Op.deleteFirst caller bookingId, db => (deleteBookingFirst db caller bookingId).2
  | Op.deleteSecond bookingId, db => (deleteBookingSecond db bookingId).2
  | Op.emergencyDelete bookingId, db => (emergencyDeleteBooking db bookingId).2
  | Op.reviewCreate user req, db => (createReview db user req).2
  | Op.reviewUpdate caller reviewId u, db => (updateReview db caller reviewId u).2
  | Op.reviewDelete caller reviewId, db => (deleteReview db caller reviewId).2
  | Op.carSetStock carId newStock, db => (updateCarStock db carId newStock).2
  | Op.carToggle carId, db => (toggleAvailability db carId).2

/-- Run a sequence of operations left to right. -/
def runOps (ops : List Op) (db : DB) : DB :=
  ops.foldl (fun d op => op.apply d) db

/-! ### Lookup lemmas -/

/-- `find?` commutes with a `map` whose function preserves the predicate. -/
theorem find?_map_of_pred_inv {α : Type} {p : α → Bool} {f : α → α}
    (hf : ∀ x, p (f x) = p x) (l : List α) :
    (l.map f).find? p = (l.find? p).map f := by
  rw [List.find?_map]
  have hpf : p ∘ f = p := funext hf
  rw [hpf]

theorem findCar_updateCar_self {db : DB} {carId : Nat} {c0 c : Car}
    (h : findCar db carId = some c0) :
    findCar (updateCar db carId c) carId = some c := by
  unfold findCar at h ⊢
  unfold updateCar
  have hf : ∀ x : Nat × Car,
      (((if x.1 == carId then (carId, c) else x) : Nat × Car).1 == carId)
        = (x.1 == carId) := by
    intro x
    by_cases hx : x.1 == carId
    · simp [hx]
    · simp [hx]
  rw [find?_map_of_pred_inv hf db.cars]
  obtain ⟨pr, hpr⟩ : ∃ pr, db.cars.find? (fun p => p.1 == carId) = some pr := by
    cases hfind : db.cars.find? (fun p => p.1 == carId) with
    | none => rw [hfind] at h; simp at h
    | some pr => exact ⟨pr, rfl⟩
  have hpr1 := List.find?_some hpr
  rw [hpr, Option.map_some', Option.map_some', if_pos hpr1]

theorem findCar_updateCar_other {db : DB} {carId w : Nat} {c : Car}
    (h : w ≠ carId) :
    findCar (updateCar db carId c) w = findCar db w := by
  unfold findCar updateCar
  have hf : ∀ x : Nat × Car,
      (((if x.1 == carId then (carId, c) else x) : Nat × Car).1 == w)
        = (x.1 == w) := by
    intro x
    by_cases hx : x.1 == carId
    · have : x.1 = carId := by simpa using hx
      simp [hx, this, Ne.symm h]
    · simp [hx]
  rw [find?_map_of_pred_inv hf db.cars]
  cases hfind : db.cars.find? (fun p => p.1 == w) with
  | none => rfl
  | some pr =>
    have hw0 := List.find?_some hfind
    have hw : pr.1 = w := by simpa using hw0
    have hne : ¬ pr.1 = carId := by rw [hw]; exact h
    simp [hne]

theorem updateCar_bookings (db : DB) (carId : Nat) (c : Car) :
    (updateCar db carId c).bookings = db.bookings := rfl

theorem updateCar_reviews (db : DB) (carId : Nat) (c : Car) :
    (updateCar db carId c).reviews = db.reviews := rfl

theorem findBooking_setBookingStatus_self {db : DB} {bookingId : Nat} {b : Booking}
    {st : BStatus} (h : findBooking db bookingId = some b) :
    findBooking (setBookingStatus db bookingId st) bookingId
      = some { b with status := st } := by
  unfold findBooking at h ⊢
  unfold setBookingStatus
  have hf : ∀ x : Booking,
      (((if x.id == bookingId then { x with status := st } else x) : Booking).id
        == bookingId) = (x.id == bookingId) := by
    intro x
    by_cases hx : x.id == bookingId
    · simp [hx]
    · simp [hx]
  rw [find?_map_of_pred_inv hf db.bookings, h, Option.map_some',
    if_pos (List.find?_some h)]

theorem setBookingStatus_cars (db : DB) (bookingId : Nat) (st : BStatus) :
    (setBookingStatus db bookingId st).cars = db.cars := rfl

theorem setBookingStatus_reviews (db : DB) (bookingId : Nat) (st : BStatus) :
    (setBookingStatus db bookingId st).reviews = db.reviews := rfl

/-! ### Claim C1: date-conflict rejection on booking creation -/

/-- The three-disjunct Mongo query is exactly the inclusive-bound overlap
`s1 <= e2 AND e1 >= s2` on well-formed ranges. -/
theorem mongoOverlap_iff_overlap {bs be qs qe : Int}
    (hb : bs ≤ be) (hq : qs ≤ qe) :
    mongoOverlap bs be qs qe = true ↔ (bs ≤ qe ∧ qs ≤ be) := by
  unfold mongoOverlap
  simp only [Bool.or_eq_true, Bool.and_eq_true, decide_eq_true_eq]
  omega

/-- Claim C1 (amended): on the controller `createBooking` path, when the
vehicle exists and is available and some pending/active booking of the same
vehicle overlaps the requested range under inclusive bounds, creation
fails with the 400 double-booking error and the state is unchanged.  (The
payments-router creation path performs no conflict check at all; see the
counterexample.) -/
theorem createBooking_rejects_conflict (db : DB) (req : CreateReqCtrl) (newId : Nat)
    (vehicle : Car) (b : Booking)
    (hcar : findCar db req.vehicleId = some vehicle)
    (hav : vehicle.availability = true)
    (hb : b ∈ db.bookings) (hveh : b.vehicleId = req.vehicleId)
    (hstatus : b.status = BStatus.pending ∨ b.status = BStatus.active)
    (hwfb : b.startDate ≤ b.endDate) (hwfq : req.startDate ≤ req.endDate)
    (hov1 : b.startDate ≤ req.endDate) (hov2 : req.startDate ≤ b.endDate) :
    createBooking db req newId
      = (⟨400, "Vehicle is already booked for these dates"⟩, db) := by
  have hovb : mongoOverlap b.startDate b.endDate req.startDate req.endDate = true :=
    (mongoOverlap_iff_overlap hwfb hwfq).2 ⟨hov1, hov2⟩
  have hpb : (b.vehicleId == req.vehicleId &&
      ((b.status == BStatus.pending || b.status == BStatus.active)) &&
      mongoOverlap b.startDate b.endDate req.startDate req.endDate) = true := by
    rcases hstatus with h | h <;> simp [hveh, h, hovb] <;> decide
  have hsome : (conflictingBooking db req.vehicleId req.startDate req.endDate).isSome := by
    unfold conflictingBooking
    rw [List.find?_isSome]
    exact ⟨b, hb, hpb⟩
  unfold createBooking
  rw [hcar]
  simp only [hav, Bool.not_true]
  cases hc : conflictingBooking db req.vehicleId req.startDate req.endDate with
  | none => rw [hc] at hsome; simp at hsome
  | some x => simp

/-- Concrete state for the C1/C2/C6 counterexamples: one car with stock 5,
one pending booking for days 0–2 on it. -/
def exCar : Car :=
  { pricePerDay := 50, availability := true, stock := 5, rating := 0
    numberOfReviews := 0 }

def exBooking : Booking :=
  { id := 1, userId := 7, vehicleId := 1, startDate := 0, endDate := 2 * 86400000
    totalAmount := 100, additionalServices := [], status := BStatus.pending
    paymentStatus := PayStatus.pending }

def exDb1 : DB :=
  { cars := [(1, exCar)], bookings := [exBooking], reviews := [], services := [] }

/-- Payments-route creation request whose range (days 2–4) shares the
boundary day with `exBooking` (days 0–2) and therefore conflicts under the
inclusive-bound rule. -/
def exReq1 : CreateReqRoute :=
  { userId := 9, vehicleId := 1, startDate := 2 * 86400000
    endDate := 4 * 86400000, totalAmount := 100
    hasPickupLocation := true, hasDropoffLocation := true }

/-- Claim C1 counterexample: the payments-router creation handler accepts
a request that overlaps an existing pending booking of the same vehicle
(shared boundary day) and persists a second booking. -/
theorem createBookingRoute_ignores_conflict :
    exBooking ∈ exDb1.bookings
    ∧ exBooking.vehicleId = exReq1.vehicleId
    ∧ exBooking.status = BStatus.pending
    ∧ exBooking.startDate ≤ exReq1.endDate
    ∧ exReq1.startDate ≤ exBooking.endDate
    ∧ (createBookingRoute exDb1 exReq1 2).1.code = 201
    ∧ (createBookingRoute exDb1 exReq1 2).2.bookings.length = 2 := by
  refine ⟨by simp [exDb1], by decide, by decide, by decide, by decide, rfl, rfl⟩

/-- Controller creation request with the same conflicting range. -/
def exReqC1 : CreateReqCtrl :=
  { userId := 9, vehicleId := 1, startDate := 2 * 86400000
    endDate := 4 * 86400000, serviceIds := [] }

/-- Witness for `createBooking_rejects_conflict` at the concrete state. -/
theorem createBooking_rejects_conflict_witness :
    createBooking exDb1 exReqC1 2
      = (⟨400, "Vehicle is already booked for these dates"⟩, exDb1) :=
  createBooking_rejects_conflict exDb1 exReqC1 2 exCar exBooking rfl rfl
    (by simp [exDb1]) rfl (Or.inl rfl) (by decide) (by decide) (by decide) (by decide)

/-! ### Claim C2: stock decrement on booking creation -/

/-- Claim C2 (amended): on the payments-router creation path, with the car
available: if `stock > 0` the creation succeeds, the stored stock drops by
one and `availability` becomes false exactly when the new stock is zero;
if `stock = 0` the creation fails with the out-of-stock error and nothing
changes.  (The controller `createBooking` path neither checks nor changes
stock; see the counterexample.) -/
theorem createBookingRoute_stock (db : DB) (req : CreateReqRoute) (newId : Nat)
    (car : Car)
    (hcar : findCar db req.vehicleId = some car)
    (hav : car.availability = true)
    (hpick : req.hasPickupLocation = true) (hdrop : req.hasDropoffLocation = true) :
    (0 < car.stock →
      (createBookingRoute db req newId).1.code = 201
      ∧ findCar (createBookingRoute db req newId).2 req.vehicleId
          = some { car with
                   stock := car.stock - 1
                   availability := if car.stock - 1 = 0 then false else true })
    ∧ (car.stock = 0 →
      createBookingRoute db req newId = (⟨400, "This car is out of stock"⟩, db)) := by
  constructor
  · intro hpos
    have hstock : ¬ car.stock ≤ 0 := by omega
    unfold createBookingRoute
    rw [hcar]
    simp only [hpick, hdrop, hav, Bool.not_true, Bool.or_self, Bool.false_eq_true,
      if_false, if_neg hstock]
    refine ⟨trivial, ?_⟩
    have hfind := findCar_updateCar_self
      (c := { car with
              stock := car.stock - 1
              availability := if car.stock - 1 = 0 then false else car.availability })
      hcar
    rw [hav] at hfind
    exact hfind
  · intro hzero
    have hstock : car.stock ≤ 0 := by omega
    unfold createBookingRoute
    rw [hcar]
    simp only [hpick, hdrop, hav, Bool.not_true, Bool.or_self, Bool.false_eq_true,
      if_false, if_pos hstock]

/-- Car with a single unit in stock, and a state with no bookings. -/
def exCar2 : Car :=
  { pricePerDay := 50, availability := true, stock := 1, rating := 0
    numberOfReviews := 0 }

def exDb2 : DB :=
  { cars := [(1, exCar2)], bookings := [], reviews := [], services := [] }

def exReqC2 : CreateReqCtrl :=
  { userId := 9, vehicleId := 1, startDate := 0, endDate := 2 * 86400000
    serviceIds := [] }

/-- Car with zero stock but availability still true. -/
def exCar0 : Car :=
  { pricePerDay := 50, availability := true, stock := 0, rating := 0
    numberOfReviews := 0 }

def exDb0 : DB :=
  { cars := [(1, exCar0)], bookings := [], reviews := [], services := [] }

/-- Claim C2 counterexample: the controller `createBooking` path succeeds
on a stock-1 car and leaves the stock at 1 instead of 0, and even succeeds
on a stock-0 car instead of returning a stock-exhaustion error. -/
theorem createBooking_ignores_stock :
    exCar2.stock = 1
    ∧ (createBooking exDb2 exReqC2 1).1.code = 201
    ∧ findCar (createBooking exDb2 exReqC2 1).2 1 = some exCar2
    ∧ exCar0.stock = 0
    ∧ (createBooking exDb0 exReqC2 1).1.code = 201 := by
  exact ⟨rfl, rfl, rfl, rfl, rfl⟩

/-- Payments-route request for the stock witness. -/
def exReqR2 : CreateReqRoute :=
  { userId := 9, vehicleId := 1, startDate := 0, endDate := 2 * 86400000
    totalAmount := 100, hasPickupLocation := true, hasDropoffLocation := true }

/-- Witness for `createBookingRoute_stock`: booking the stock-1 car leaves
stock 0 and availability false. -/
theorem createBookingRoute_stock_witness :
    0 < exCar2.stock
    ∧ ((createBookingRoute exDb2 exReqR2 1).1.code = 201
      ∧ findCar (createBookingRoute exDb2 exReqR2 1).2 1
          = some { exCar2 with stock := 0, availability := false }) :=
  ⟨by decide,
    (createBookingRoute_stock exDb2 exReqR2 1 exCar2 rfl rfl rfl rfl).1 (by decide)⟩

/-! ### Claim C3: cancellation and stock restoration -/

/-- The cancel handler never modifies the car collection, on any branch. -/
theorem cancelBooking_cars (db : DB) (caller : Caller) (bookingId : Nat) :
    ((cancelBooking db caller bookingId).2).cars = db.cars := by
  unfold cancelBooking
  cases h : findBooking db bookingId with
  | none => rfl
  | some b =>
    dsimp only
    by_cases hc : b.userId ≠ caller.id ∧ caller.role ≠ Role.admin
    · rw [if_pos hc]
    · rw [if_neg hc]
      rfl

/-- Claim C3 (amended): cancelling a booking as its owner or an admin sets
its status to cancelled but leaves every car document untouched — the
handler performs no stock restoration and no availability change — and a
second cancel likewise leaves the cars untouched (so stock is never
incremented at all, rather than exactly once). -/
theorem cancelBooking_no_stock_restore (db : DB) (caller : Caller) (bookingId : Nat)
    (b : Booking)
    (hb : findBooking db bookingId = some b)
    (hauth : b.userId = caller.id ∨ caller.role = Role.admin) :
    (cancelBooking db caller bookingId).1.code = 200
    ∧ findBooking (cancelBooking db caller bookingId).2 bookingId
        = some { b with status := BStatus.cancelled }
    ∧ (cancelBooking db caller bookingId).2.cars = db.cars
    ∧ ((cancelBooking (cancelBooking db caller bookingId).2 caller bookingId).2).cars
        = db.cars := by
  have hcond : ¬ (b.userId ≠ caller.id ∧ caller.role ≠ Role.admin) := by
    rcases hauth with h | h
    · intro hc; exact hc.1 h
    · intro hc; exact hc.2 h
  refine ⟨?_, ?_, cancelBooking_cars db caller bookingId, ?_⟩
  · unfold cancelBooking
    rw [hb]
    dsimp only
    rw [if_neg hcond]
  · unfold cancelBooking
    rw [hb]
    dsimp only
    rw [if_neg hcond]
    exact findBooking_setBookingStatus_self hb
  · rw [cancelBooking_cars, cancelBooking_cars]

/-- Car left at zero stock and unavailable (as after a creation that
consumed the last unit), with one pending booking by user 7. -/
def exCarZero : Car :=
  { pricePerDay := 50, availability := false, stock := 0, rating := 0
    numberOfReviews := 0 }

def exBooking3 : Booking :=
  { id := 1, userId := 7, vehicleId := 1, startDate := 0, endDate := 86400000
    totalAmount := 50, additionalServices := [], status := BStatus.pending
    paymentStatus := PayStatus.pending }

def exDb3 : DB :=
  { cars := [(1, exCarZero)], bookings := [exBooking3], reviews := [], services := [] }

def exOwner : Caller := { id := 7, role := Role.customer }

/-- Claim C3 counterexample: the owner cancels their pending booking; the
status becomes cancelled but the car's stock stays 0 and availability
stays false — nothing is restored. -/
theorem cancelBooking_counterexample :
    exBooking3.status = BStatus.pending
    ∧ exBooking3.userId = exOwner.id
    ∧ (cancelBooking exDb3 exOwner 1).1.code = 200
    ∧ findBooking (cancelBooking exDb3 exOwner 1).2 1
        = some { exBooking3 with status := BStatus.cancelled }
    ∧ findCar (cancelBooking exDb3 exOwner 1).2 1 = some exCarZero
    ∧ exCarZero.stock = 0
    ∧ exCarZero.availability = false :=
  ⟨rfl, rfl, rfl, rfl, rfl, rfl, rfl⟩

/-- Witness for `cancelBooking_no_stock_restore` at the concrete state. -/
theorem cancelBooking_no_stock_restore_witness :
    (cancelBooking exDb3 exOwner 1).1.code = 200
    ∧ findBooking (cancelBooking exDb3 exOwner 1).2 1
        = some { exBooking3 with status := BStatus.cancelled }
    ∧ (cancelBooking exDb3 exOwner 1).2.cars = exDb3.cars
    ∧ ((cancelBooking (cancelBooking exDb3 exOwner 1).2 exOwner 1).2).cars
        = exDb3.cars :=
  cancelBooking_no_stock_restore exDb3 exOwner 1 exBooking3 rfl (Or.inl rfl)

/-! ### Claim C4: deletion and stock restoration -/

/-- Removing a booking leaves no booking under that id. -/
theorem findBooking_removeBooking (db : DB) (bookingId : Nat) :
    findBooking (removeBooking db bookingId) bookingId = none := by
  unfold findBooking removeBooking
  simp only
  rw [List.find?_eq_none]
  intro x hx
  have hmem := List.mem_filter.1 hx
  simpa using hmem.2

/-- Claim C4 (amended): the first-registered `DELETE /:id` handler — the
one Express actually dispatches to — physically removes the booking but
leaves every car unchanged (no stock restoration); the second, shadowed
handler removes the booking and performs the stock restoration exactly
once, incrementing the car's stock by 1 and re-enabling availability when
it was false. -/
theorem deleteBooking_stock_effects (db : DB) (caller : Caller) (bookingId : Nat)
    (b : Booking) (car : Car)
    (hb : findBooking db bookingId = some b)
    (hauth : b.userId = caller.id ∨ caller.role = Role.admin)
    (hcar : findCar db b.vehicleId = some car) :
    ((deleteBookingFirst db caller bookingId).1.code = 200
      ∧ (deleteBookingFirst db caller bookingId).2.cars = db.cars
      ∧ findBooking (deleteBookingFirst db caller bookingId).2 bookingId = none)
    ∧ ((deleteBookingSecond db bookingId).1.code = 200
      ∧ findBooking (deleteBookingSecond db bookingId).2 bookingId = none
      ∧ findCar (deleteBookingSecond db bookingId).2 b.vehicleId
          = some { car with
                   stock := car.stock + 1
                   availability :=
                     if !car.availability ∧ car.stock + 1 > 0 then true
                     else car.availability }) := by
  have hcond : ¬ (b.userId ≠ caller.id ∧ caller.role ≠ Role.admin) := by
    rcases hauth with h | h
    · intro hc; exact hc.1 h
    · intro hc; exact hc.2 h
  constructor
  · unfold deleteBookingFirst
    rw [hb]
    dsimp only
    rw [if_neg hcond]
    exact ⟨rfl, rfl, findBooking_removeBooking db bookingId⟩
  · unfold deleteBookingSecond
    rw [hb]
    dsimp only
    have hcar1 : findCar (removeBooking db bookingId) b.vehicleId = some car := hcar
    refine ⟨rfl, ?_, ?_⟩
    · unfold restoreCarStock
      rw [hcar1]
      exact findBooking_removeBooking db bookingId
    · unfold restoreCarStock
      rw [hcar1]
      exact findCar_updateCar_self hcar1

/-- Claim C4 counterexample: the effective delete route removes user 7's
never-cancelled pending booking but the car's stock stays 0 — the
compensating restoration never happens on the dispatched route. -/
theorem deleteBooking_counterexample :
    exBooking3.status = BStatus.pending
    ∧ (deleteBookingFirst exDb3 exOwner 1).1.code = 200
    ∧ findBooking (deleteBookingFirst exDb3 exOwner 1).2 1 = none
    ∧ findCar (deleteBookingFirst exDb3 exOwner 1).2 1 = some exCarZero
    ∧ exCarZero.stock = 0 :=
  ⟨rfl, rfl, rfl, rfl, rfl⟩

/-- Witness for `deleteBooking_stock_effects` at the concrete state: the
shadowed second handler restores stock 0 to 1 and re-enables
availability. -/
theorem deleteBooking_stock_effects_witness :
    ((deleteBookingFirst exDb3 exOwner 1).1.code = 200
      ∧ (deleteBookingFirst exDb3 exOwner 1).2.cars = exDb3.cars
      ∧ findBooking (deleteBookingFirst exDb3 exOwner 1).2 1 = none)
    ∧ ((deleteBookingSecond exDb3 1).1.code = 200
      ∧ findBooking (deleteBookingSecond exDb3 1).2 1 = none
      ∧ findCar (deleteBookingSecond exDb3 1).2 1
          = some { exCarZero with stock := 1, availability := true }) :=
  deleteBooking_stock_effects exDb3 exOwner 1 exBooking3 exCarZero rfl
    (Or.inl rfl) rfl

/-! ### Claim C6: totalAmount computation -/

/-- Claim C6 (amended): on the controller `createBooking` path, a
successful creation persists a booking whose `totalAmount` is the ceiling
day count times `pricePerDay` plus the catalog services cost times the
same day count, with the selected services snapshotted into the booking.
(The payments-router creation path instead persists the client-supplied
`totalAmount` verbatim; see the counterexample.) -/
theorem createBooking_totalAmount (db : DB) (req : CreateReqCtrl) (newId : Nat)
    (vehicle : Car)
    (hcar : findCar db req.vehicleId = some vehicle)
    (hav : vehicle.availability = true)
    (hconf : conflictingBooking db req.vehicleId req.startDate req.endDate = none) :
    (createBooking db req newId).1.code = 201
    ∧ (createBooking db req newId).2.bookings
        = db.bookings ++
          [{ id := newId, userId := req.userId, vehicleId := req.vehicleId
             startDate := req.startDate, endDate := req.endDate
             totalAmount :=
               vehicle.pricePerDay
                   * ((⌈(((req.endDate - req.startDate : Int) : ℚ))
                         / ((86400000 : ℕ) : ℚ)⌉ : Int) : ℚ)
                 + servicesCost (selectedServices db req.serviceIds)
                   * ((⌈(((req.endDate - req.startDate : Int) : ℚ))
                         / ((86400000 : ℕ) : ℚ)⌉ : Int) : ℚ)
             additionalServices :=
               (selectedServices db req.serviceIds).map
                 (fun s => ServiceLine.mk s.id s.name s.price)
             status := BStatus.pending, paymentStatus := PayStatus.pending }] := by
  unfold createBooking
  rw [hcar]
  dsimp only
  simp only [hav, Bool.not_true, Bool.false_eq_true, if_false]
  rw [hconf, ← durationInDays_eq_ceil]
  exact ⟨rfl, rfl⟩

/-- Car and catalog for the C6 scenario: price 50 per day, a 10-per-day
service with id 5 in the catalog. -/
def exCar6 : Car :=
  { pricePerDay := 50, availability := true, stock := 3, rating := 0
    numberOfReviews := 0 }

def exService6 : Service :=
  { id := 5, name := "gps", price := 10, isActive := true }

def exDb6 : DB :=
  { cars := [(1, exCar6)], bookings := [], reviews := [], services := [exService6] }

/-- Two days (Jan 1 to Jan 3), no services. -/
def exReqC6a : CreateReqCtrl :=
  { userId := 9, vehicleId := 1, startDate := 0, endDate := 2 * 86400000
    serviceIds := [] }

/-- Two days with the 10-per-day service selected. -/
def exReqC6b : CreateReqCtrl :=
  { userId := 9, vehicleId := 1, startDate := 0, endDate := 2 * 86400000
    serviceIds := [5] }

/-- Witness for `createBooking_totalAmount`: price 50 over two days gives
100; adding the 10-per-day service gives 120, with the service
snapshotted. -/
theorem createBooking_totalAmount_witness :
    ((createBooking exDb6 exReqC6a 1).1.code = 201
      ∧ (createBooking exDb6 exReqC6a 1).2.bookings.map (fun b => b.totalAmount)
          = [100])
    ∧ ((createBooking exDb6 exReqC6b 1).1.code = 201
      ∧ (createBooking exDb6 exReqC6b 1).2.bookings.map (fun b => b.totalAmount)
          = [120]
      ∧ (createBooking exDb6 exReqC6b 1).2.bookings.map
            (fun b => b.additionalServices)
          = [[ServiceLine.mk 5 "gps" 10]]) := by
  have ha := createBooking_totalAmount exDb6 exReqC6a 1 exCar6 rfl rfl rfl
  have hb := createBooking_totalAmount exDb6 exReqC6b 1 exCar6 rfl rfl rfl
  refine ⟨⟨ha.1, ?_⟩, hb.1, ?_, ?_⟩
  · rw [ha.2]
    norm_num [exDb6, exCar6, exService6, exReqC6a, servicesCost, selectedServices,
      List.filter]
  · rw [hb.2]
    norm_num [exDb6, exCar6, exService6, exReqC6b, servicesCost, selectedServices,
      List.filter]
  · rw [hb.2]
    norm_num [exDb6, exService6, exReqC6b, selectedServices, List.filter]

/-- Payments-route request carrying a client-chosen totalAmount of 7 for
the same two-day rental of the price-50 car. -/
def exReqR6 : CreateReqRoute :=
  { userId := 9, vehicleId := 1, startDate := 0, endDate := 2 * 86400000
    totalAmount := 7, hasPickupLocation := true, hasDropoffLocation := true }

/-- Claim C6 counterexample: the payments-router creation persists the
client-supplied totalAmount 7 although the day-count formula gives 100. -/
theorem createBookingRoute_totalAmount_counterexample :
    (createBookingRoute exDb6 exReqR6 1).1.code = 201
    ∧ (createBookingRoute exDb6 exReqR6 1).2.bookings.map (fun b => b.totalAmount)
        = [7]
    ∧ exCar6.pricePerDay
        * ((durationInDays exReqR6.startDate exReqR6.endDate : Int) : ℚ) = 100
    ∧ (7 : ℚ) ≠ 100 := by
  have hdur : durationInDays exReqR6.startDate exReqR6.endDate = 2 := by decide
  refine ⟨rfl, rfl, ?_, by norm_num⟩
  rw [hdur]
  norm_num [exCar6]

/-! ### Claim C7: booking status transitions -/

/-- Claim C7 (amended): status transitions are unguarded.  For any
existing booking — whatever its current status, including cancelled and
completed — approve sets it to active, reject sets it to cancelled, and an
admin update sets it to any requested status. -/
theorem bookingTransitions_unguarded (db : DB) (bookingId : Nat) (b : Booking)
    (adm : Caller) (st : BStatus) (now : Int)
    (hb : findBooking db bookingId = some b)
    (hadm : adm.role = Role.admin) :
    findBooking (approveBooking db bookingId).2 bookingId
        = some { b with status := BStatus.active }
    ∧ findBooking (rejectBooking db bookingId).2 bookingId
        = some { b with status := BStatus.cancelled }
    ∧ findBooking (updateBooking db adm bookingId st now).2 bookingId
        = some { b with status := st } := by
  refine ⟨?_, ?_, ?_⟩
  · unfold approveBooking
    rw [hb]
    exact findBooking_setBookingStatus_self hb
  · unfold rejectBooking
    rw [hb]
    exact findBooking_setBookingStatus_self hb
  · unfold updateBooking
    rw [hb]
    dsimp only
    rw [if_neg (by intro hc; exact hc.2 hadm), if_neg (by intro hc; exact hc.1 hadm),
      if_neg (by intro hc; exact hc.1 hadm)]
    exact findBooking_setBookingStatus_self hb

/-- A cancelled booking. -/
def exBookingCancelled : Booking :=
  { id := 2, userId := 7, vehicleId := 1, startDate := 0, endDate := 86400000
    totalAmount := 50, additionalServices := [], status := BStatus.cancelled
    paymentStatus := PayStatus.pending }

def exDb7 : DB :=
  { cars := [(1, exCarZero)], bookings := [exBookingCancelled], reviews := []
    services := [] }

/-- Claim C7 counterexample: approving a cancelled booking transitions it
out of `cancelled` to `active`. -/
theorem approve_cancelled_counterexample :
    findBooking exDb7 2 = some exBookingCancelled
    ∧ exBookingCancelled.status = BStatus.cancelled
    ∧ (approveBooking exDb7 2).1.code = 200
    ∧ findBooking (approveBooking exDb7 2).2 2
        = some { exBookingCancelled with status := BStatus.active } :=
  ⟨rfl, rfl, rfl, rfl⟩

/-- An admin caller. -/
def exAdmin : Caller := { id := 1, role := Role.admin }

/-- Witness for `bookingTransitions_unguarded` on the cancelled booking. -/
theorem bookingTransitions_unguarded_witness :
    findBooking (approveBooking exDb7 2).2 2
        = some { exBookingCancelled with status := BStatus.active }
    ∧ findBooking (rejectBooking exDb7 2).2 2
        = some { exBookingCancelled with status := BStatus.cancelled }
    ∧ findBooking (updateBooking exDb7 exAdmin 2 BStatus.completed 0).2 2
        = some { exBookingCancelled with status := BStatus.completed } :=
  bookingTransitions_unguarded exDb7 2 exBookingCancelled exAdmin
    BStatus.completed 0 rfl rfl

/-! ### Claim C9: ownership and role authorization -/

/-- Claim C9 (amended): the view, update (PUT /:id), cancel and
first-delete handlers return 403 and leave the state unchanged for a
caller who is neither the owner nor an admin, and the listing returns only
the caller's own bookings for non-admins; but the approve, reject and
emergency-delete routes perform no ownership or role check at all (see the
counterexample). -/
theorem bookingAuthorization (db : DB) (caller : Caller) (bookingId : Nat)
    (b : Booking) (st : BStatus) (now : Int)
    (hb : findBooking db bookingId = some b)
    (hnotown : b.userId ≠ caller.id)
    (hnotadm : caller.role ≠ Role.admin) :
    getBooking db caller bookingId
        = ⟨403, "You do not have permission to access this booking"⟩
    ∧ updateBooking db caller bookingId st now
        = (⟨403, "Not authorized to update this booking"⟩, db)
    ∧ cancelBooking db caller bookingId
        = (⟨403, "You are not authorized to cancel this booking"⟩, db)
    ∧ deleteBookingFirst db caller bookingId
        = (⟨403, "You are not authorized to delete this booking"⟩, db)
    ∧ (getBookings db caller).all (fun x => x.userId == caller.id) = true := by
  have hcond : b.userId ≠ caller.id ∧ caller.role ≠ Role.admin := ⟨hnotown, hnotadm⟩
  refine ⟨?_, ?_, ?_, ?_, ?_⟩
  · unfold getBooking
    rw [hb]
    dsimp only
    rw [if_pos hcond]
  · unfold updateBooking
    rw [hb]
    dsimp only
    rw [if_pos hcond]
  · unfold cancelBooking
    rw [hb]
    dsimp only
    rw [if_pos hcond]
  · unfold deleteBookingFirst
    rw [hb]
    dsimp only
    rw [if_pos hcond]
  · unfold getBookings
    rw [if_neg hnotadm, List.all_eq_true]
    intro x hx
    exact (List.mem_filter.1 hx).2

/-- An authenticated stranger: neither owner of `exBooking3` nor admin. -/
def exStranger : Caller := { id := 99, role := Role.customer }

/-- Claim C9 counterexample: the approve and reject routes take no caller
identity into account at all (any authenticated user can fire them on any
booking), and the emergency delete route removes another user's booking
with no authorization check. -/
theorem authorizationBypass_counterexample :
    exBooking3.userId ≠ exStranger.id
    ∧ exStranger.role ≠ Role.admin
    ∧ (approveBooking exDb3 1).1.code = 200
    ∧ findBooking (approveBooking exDb3 1).2 1
        = some { exBooking3 with status := BStatus.active }
    ∧ (emergencyDeleteBooking exDb3 1).1.code = 200
    ∧ findBooking (emergencyDeleteBooking exDb3 1).2 1 = none := by
  refine ⟨by decide, by decide, rfl, rfl, rfl, rfl⟩

/-- Witness for `bookingAuthorization` with the stranger caller. -/
theorem bookingAuthorization_witness :
    getBooking exDb3 exStranger 1
        = ⟨403, "You do not have permission to access this booking"⟩
    ∧ updateBooking exDb3 exStranger 1 BStatus.cancelled 0
        = (⟨403, "Not authorized to update this booking"⟩, exDb3)
    ∧ cancelBooking exDb3 exStranger 1
        = (⟨403, "You are not authorized to cancel this booking"⟩, exDb3)
    ∧ deleteBookingFirst exDb3 exStranger 1
        = (⟨403, "You are not authorized to delete this booking"⟩, exDb3)
    ∧ (getBookings exDb3 exStranger).all (fun x => x.userId == exStranger.id)
        = true :=
  bookingAuthorization exDb3 exStranger 1 exBooking3 BStatus.cancelled 0 rfl
    (by decide) (by decide)

/-! ### Claim C8: one review per (user, car) and update recomputation -/

/-- `getAverageRating` leaves the review collection untouched. -/
theorem getAverageRating_reviews (db : DB) (carId : Nat) :
    (getAverageRating db carId).reviews = db.reviews := by
  unfold getAverageRating
  cases findCar db carId <;> rfl

/-- States with the same reviews agree on `reviewsFor`. -/
theorem reviewsFor_eq_of_reviews_eq {db1 db2 : DB}
    (h : db1.reviews = db2.reviews) (x : Nat) :
    reviewsFor db1 x = reviewsFor db2 x := by
  unfold reviewsFor
  rw [h]

/-- States with the same reviews agree on `carAvgRating`. -/
theorem carAvgRating_eq_of_reviews_eq {db1 db2 : DB}
    (h : db1.reviews = db2.reviews) (x : Nat) :
    carAvgRating db1 x = carAvgRating db2 x := by
  unfold carAvgRating
  rw [reviewsFor_eq_of_reviews_eq h]

/-- `getAverageRating` writes exactly the recomputed count and rounded
average onto the car. -/
theorem getAverageRating_correct {db : DB} {carId : Nat} {car : Car}
    (hcar : findCar db carId = some car) :
    findCar (getAverageRating db carId) carId
      = some { car with
               rating := carAvgRating db carId
               numberOfReviews := (reviewsFor db carId).length } := by
  unfold getAverageRating
  rw [hcar]
  exact findCar_updateCar_self hcar

/-- After `getAverageRating`, the car's stored aggregates are correct with
respect to the final state's own review collection. -/
theorem findCar_getAverageRating_agg {db : DB} {c : Nat} {car : Car}
    (hcar : findCar db c = some car) :
    findCar (getAverageRating db c) c
      = some { car with
               rating := carAvgRating (getAverageRating db c) c
               numberOfReviews := (reviewsFor (getAverageRating db c) c).length } := by
  have h2 : carAvgRating (getAverageRating db c) c = carAvgRating db c :=
    carAvgRating_eq_of_reviews_eq (getAverageRating_reviews db c) c
  have h3 : reviewsFor (getAverageRating db c) c = reviewsFor db c :=
    reviewsFor_eq_of_reviews_eq (getAverageRating_reviews db c) c
  rw [h2, h3]
  exact getAverageRating_correct hcar

/-- Claim C8: when a user already has a review for a car, a second
creation attempt by that user fails with the 400 duplicate-review error
and changes nothing, while updating the existing review as its owner
succeeds and leaves the car's stored rating and review count equal to the
recomputation over the final review collection. -/
theorem review_unique_and_update (db : DB) (u : Caller) (carId rid : Nat)
    (carA : Car) (r0 r1 : Review) (car2 : Car) (newRating rat : Int)
    (hcarA : findCar db carId = some carA)
    (hdup : db.reviews.find? (fun r => r.userId == u.id && r.carId == carId)
        = some r0)
    (hr1 : db.reviews.find? (fun r => r.id == rid) = some r1)
    (hown : r1.userId = u.id)
    (hcar2 : findCar db r1.carId = some car2) :
    createReview db u ⟨carId, rat⟩
        = (⟨400, "You have already reviewed this car"⟩, db)
    ∧ (updateReview db u rid ⟨some newRating, none⟩).1.code = 200
    ∧ findCar (updateReview db u rid ⟨some newRating, none⟩).2 r1.carId
        = some { car2 with
                 rating :=
                   carAvgRating (updateReview db u rid ⟨some newRating, none⟩).2
                     r1.carId
                 numberOfReviews :=
                   (reviewsFor (updateReview db u rid ⟨some newRating, none⟩).2
                     r1.carId).length } := by
  have hcond : ¬ (r1.userId ≠ u.id ∧ u.role ≠ Role.admin) := by
    intro hc
    exact hc.1 hown
  refine ⟨?_, ?_, ?_⟩
  · unfold createReview
    rw [hcarA]
    dsimp only
    rw [hdup]
  · unfold updateReview
    rw [hr1]
    dsimp only
    rw [if_neg hcond]
  · unfold updateReview
    rw [hr1]
    dsimp only
    rw [if_neg hcond]
    exact findCar_getAverageRating_agg hcar2

/-- Car 1 with one rating-4 review by user 7, aggregates already
consistent. -/
def exReview8 : Review := { id := 1, userId := 7, carId := 1, rating := 4 }

def exCar8 : Car :=
  { pricePerDay := 50, availability := true, stock := 3, rating := 4
    numberOfReviews := 1 }

def exDb8 : DB :=
  { cars := [(1, exCar8)], bookings := [], reviews := [exReview8], services := [] }

/-- Witness for `review_unique_and_update` at the concrete state: user 7
cannot file a second review for car 1 but can update the existing one,
which recomputes the car's aggregates. -/
theorem review_unique_and_update_witness :
    createReview exDb8 exOwner ⟨1, 5⟩
        = (⟨400, "You have already reviewed this car"⟩, exDb8)
    ∧ (updateReview exDb8 exOwner 1 ⟨some 5, none⟩).1.code = 200
    ∧ findCar (updateReview exDb8 exOwner 1 ⟨some 5, none⟩).2 exReview8.carId
        = some { exCar8 with
                 rating :=
                   carAvgRating (updateReview exDb8 exOwner 1 ⟨some 5, none⟩).2
                     exReview8.carId
                 numberOfReviews :=
                   (reviewsFor (updateReview exDb8 exOwner 1 ⟨some 5, none⟩).2
                     exReview8.carId).length } :=
  review_unique_and_update exDb8 exOwner 1 1 exCar8 exReview8 exReview8 exCar8 5 5
    rfl rfl rfl rfl rfl

/-! ### Claim C10: stock never goes negative -/

/-- Every stored car has non-negative stock. -/
def stockNonneg (db : DB) : Prop := ∀ p ∈ db.cars, 0 ≤ p.2.stock

theorem stockNonneg_of_cars_eq {db1 db2 : DB} (h : db1.cars = db2.cars)
    (hs : stockNonneg db2) : stockNonneg db1 := by
  intro p hp
  rw [h] at hp
  exact hs p hp

theorem stockNonneg_updateCar {db : DB} {carId : Nat} {c : Car}
    (hs : stockNonneg db) (hc : 0 ≤ c.stock) :
    stockNonneg (updateCar db carId c) := by
  intro p hp
  unfold updateCar at hp
  simp only [List.mem_map] at hp
  obtain ⟨q, hq, hpq⟩ := hp
  by_cases h1 : (q.1 == carId) = true
  · rw [if_pos h1] at hpq
    rw [← hpq]
    exact hc
  · rw [if_neg h1] at hpq
    rw [← hpq]
    exact hs q hq

theorem findCar_stock_nonneg {db : DB} {v : Nat} {c : Car}
    (hs : stockNonneg db) (h : findCar db v = some c) : 0 ≤ c.stock := by
  unfold findCar at h
  cases hf : db.cars.find? (fun p => p.1 == v) with
  | none => rw [hf] at h; simp at h
  | some pr =>
    rw [hf, Option.map_some'] at h
    have hpr : pr ∈ db.cars := List.mem_of_find?_eq_some hf
    have h2 := hs pr hpr
    rw [Option.some_inj] at h
    rw [← h]
    exact h2

theorem createBooking_cars (db : DB) (req : CreateReqCtrl) (newId : Nat) :
    ((createBooking db req newId).2).cars = db.cars := by
  unfold createBooking
  cases findCar db req.vehicleId with
  | none => rfl
  | some vehicle =>
    dsimp only
    by_cases hav : (!vehicle.availability) = true
    · rw [if_pos hav]
    · rw [if_neg hav]
      cases conflictingBooking db req.vehicleId req.startDate req.endDate <;> rfl

theorem approveBooking_cars (db : DB) (bookingId : Nat) :
    ((approveBooking db bookingId).2).cars = db.cars := by
  unfold approveBooking
  cases findBooking db bookingId <;> rfl

theorem rejectBooking_cars (db : DB) (bookingId : Nat) :
    ((rejectBooking db bookingId).2).cars = db.cars := by
  unfold rejectBooking
  cases findBooking db bookingId <;> rfl

theorem updateBooking_cars (db : DB) (caller : Caller) (bookingId : Nat)
    (st : BStatus) (now : Int) :
    ((updateBooking db caller bookingId st now).2).cars = db.cars := by
  unfold updateBooking
  cases findBooking db bookingId with
  | none => rfl
  | some b =>
    dsimp only
    by_cases h1 : b.userId ≠ caller.id ∧ caller.role ≠ Role.admin
    · rw [if_pos h1]
    · rw [if_neg h1]
      by_cases h2 : caller.role ≠ Role.admin ∧ b.startDate ≤ now
      · rw [if_pos h2]
      · rw [if_neg h2]
        by_cases h3 : caller.role ≠ Role.admin ∧ st ≠ BStatus.cancelled
        · rw [if_pos h3]
        · rw [if_neg h3]
          rfl

theorem deleteBookingFirst_cars (db : DB) (caller : Caller) (bookingId : Nat) :
    ((deleteBookingFirst db caller bookingId).2).cars = db.cars := by
  unfold deleteBookingFirst
  cases findBooking db bookingId with
  | none => rfl
  | some b =>
    dsimp only
    by_cases h1 : b.userId ≠ caller.id ∧ caller.role ≠ Role.admin
    · rw [if_pos h1]
    · rw [if_neg h1]
      rfl

theorem stockNonneg_createBookingRoute (db : DB) (req : CreateReqRoute)
    (newId : Nat) (hs : stockNonneg db) :
    stockNonneg ((createBookingRoute db req newId).2) := by
  unfold createBookingRoute
  by_cases h0 : (!req.hasPickupLocation || !req.hasDropoffLocation) = true
  · rw [if_pos h0]; exact hs
  · rw [if_neg h0]
    cases hc : findCar db req.vehicleId with
    | none => exact hs
    | some car =>
      dsimp only
      by_cases h1 : (!car.availability) = true
      · rw [if_pos h1]; exact hs
      · rw [if_neg h1]
        by_cases h2 : car.stock ≤ 0
        · rw [if_pos h2]; exact hs
        · rw [if_neg h2]
          exact stockNonneg_of_cars_eq rfl
            (stockNonneg_updateCar hs (show (0 : Int) ≤ car.stock - 1 by omega))

theorem stockNonneg_restoreCarStock (db : DB) (v : Nat) (hs : stockNonneg db) :
    stockNonneg (restoreCarStock db v) := by
  unfold restoreCarStock
  cases hc : findCar db v with
  | none => exact hs
  | some car =>
    have h0 := findCar_stock_nonneg hs hc
    exact stockNonneg_updateCar hs (show (0 : Int) ≤ car.stock + 1 by omega)

theorem stockNonneg_deleteBookingSecond (db : DB) (bookingId : Nat)
    (hs : stockNonneg db) :
    stockNonneg ((deleteBookingSecond db bookingId).2) := by
  unfold deleteBookingSecond
  cases findBooking db bookingId with
  | none => exact hs
  | some b => exact stockNonneg_restoreCarStock _ _ hs

theorem stockNonneg_emergencyDelete (db : DB) (bookingId : Nat)
    (hs : stockNonneg db) :
    stockNonneg ((emergencyDeleteBooking db bookingId).2) := by
  unfold emergencyDeleteBooking
  cases findBooking db bookingId with
  | none => exact hs
  | some b => exact stockNonneg_restoreCarStock _ _ hs

theorem stockNonneg_getAverageRating (db : DB) (c : Nat) (hs : stockNonneg db) :
    stockNonneg (getAverageRating db c) := by
  unfold getAverageRating
  cases hc : findCar db c with
  | none => exact hs
  | some car =>
    exact stockNonneg_updateCar hs
      (show (0 : Int) ≤ car.stock from findCar_stock_nonneg hs hc)

theorem stockNonneg_createReview (db : DB) (u : Caller) (req : ReviewReq)
    (hs : stockNonneg db) :
    stockNonneg ((createReview db u req).2) := by
  unfold createReview
  cases findCar db req.carId with
  | none => exact hs
  | some car =>
    dsimp only
    cases db.reviews.find? (fun r => r.userId == u.id && r.carId == req.carId) with
    | some r0 => exact hs
    | none => exact stockNonneg_getAverageRating _ _ hs

theorem stockNonneg_updateReview (db : DB) (caller : Caller) (reviewId : Nat)
    (u : ReviewUpdate) (hs : stockNonneg db) :
    stockNonneg ((updateReview db caller reviewId u).2) := by
  unfold updateReview
  cases db.reviews.find? (fun r => r.id == reviewId) with
  | none => exact hs
  | some r =>
    dsimp only
    by_cases h1 : r.userId ≠ caller.id ∧ caller.role ≠ Role.admin
    · rw [if_pos h1]; exact hs
    · rw [if_neg h1]
      exact stockNonneg_getAverageRating _ _ hs

theorem stockNonneg_deleteReview (db : DB) (caller : Caller) (reviewId : Nat)
    (hs : stockNonneg db) :
    stockNonneg ((deleteReview db caller reviewId).2) := by
  unfold deleteReview
  cases db.reviews.find? (fun r => r.id == reviewId) with
  | none => exact hs
  | some r =>
    dsimp only
    by_cases h1 : r.userId ≠ caller.id ∧ caller.role ≠ Role.admin
    · rw [if_pos h1]; exact hs
    · rw [if_neg h1]
      exact stockNonneg_getAverageRating _ _ hs

theorem stockNonneg_updateCarStock (db : DB) (carId : Nat) (newStock : Int)
    (hs : stockNonneg db) :
    stockNonneg ((updateCarStock db carId newStock).2) := by
  unfold updateCarStock
  cases findCar db carId with
  | none => exact hs
  | some car =>
    dsimp only
    by_cases h1 : newStock < 0
    · rw [if_pos h1]; exact hs
    · rw [if_neg h1]
      exact stockNonneg_updateCar hs (show (0 : Int) ≤ newStock by omega)

theorem stockNonneg_toggleAvailability (db : DB) (carId : Nat)
    (hs : stockNonneg db) :
    stockNonneg ((toggleAvailability db carId).2) := by
  unfold toggleAvailability
  cases hc : findCar db carId with
  | none => exact hs
  | some car =>
    exact stockNonneg_updateCar hs
      (show (0 : Int) ≤ car.stock from findCar_stock_nonneg hs hc)

/-- One operation preserves non-negative stock. -/
theorem stockNonneg_apply (op : Op) (db : DB) (hs : stockNonneg db) :
    stockNonneg (op.apply db) := by
  cases op with
  | createCtrl req newId =>
    exact stockNonneg_of_cars_eq (createBooking_cars db req newId) hs
  | createRoute req newId => exact stockNonneg_createBookingRoute db req newId hs
  | cancel caller bookingId =>
    exact stockNonneg_of_cars_eq (cancelBooking_cars db caller bookingId) hs
  | approve bookingId =>
    exact stockNonneg_of_cars_eq (approveBooking_cars db bookingId) hs
  | reject bookingId =>
    exact stockNonneg_of_cars_eq (rejectBooking_cars db bookingId) hs
  | update caller bookingId st now =>
    exact stockNonneg_of_cars_eq (updateBooking_cars db caller bookingId st now) hs
  | deleteFirst caller bookingId =>
    exact stockNonneg_of_cars_eq (deleteBookingFirst_cars db caller bookingId) hs
  | deleteSecond bookingId => exact stockNonneg_deleteBookingSecond db bookingId hs
  | emergencyDelete bookingId => exact stockNonneg_emergencyDelete db bookingId hs
  | reviewCreate u req => exact stockNonneg_createReview db u req hs
  | reviewUpdate caller reviewId u =>
    exact stockNonneg_updateReview db caller reviewId u hs
  | reviewDelete caller reviewId => exact stockNonneg_deleteReview db caller reviewId hs
  | carSetStock carId newStock => exact stockNonneg_updateCarStock db carId newStock hs
  | carToggle carId => exact stockNonneg_toggleAvailability db carId hs

/-- Claim C10: starting from any state whose cars all have non-negative
stock, no sequence of operations — booking creates, cancels, deletes,
review writes, admin car updates — ever drives any car's stock below zero:
the creation decrement is guarded by `stock > 0` and the admin update
rejects negative stock. -/
theorem stock_never_negative (ops : List Op) (db : DB) (hs : stockNonneg db) :
    stockNonneg (runOps ops db) := by
  induction ops generalizing db with
  | nil => exact hs
  | cons op t ih => exact ih (op.apply db) (stockNonneg_apply op db hs)

/-- A sequence of operations used by the C10 witness: a route creation
(consuming the last unit), a cancel, the shadowed delete with stock
restoration, an admin stock update and an availability toggle. -/
def exOps10 : List Op :=
  [Op.createRoute exReqR2 1, Op.cancel exOwner 1, Op.deleteSecond 1,
   Op.carSetStock 1 0, Op.carToggle 1]

/-- Witness for `stock_never_negative` on the stock-1 car state. -/
theorem stock_never_negative_witness :
    stockNonneg exDb2 ∧ stockNonneg (runOps exOps10 exDb2) :=
  ⟨by unfold stockNonneg; decide,
    stock_never_negative exOps10 exDb2 (by unfold stockNonneg; decide)⟩

/-! ### Claim C5: review aggregates stay correct -/

/-- Review ids are pairwise distinct (Mongo's unique `_id`). -/
def reviewIdsNodup (db : DB) : Prop :=
  (db.reviews.map (fun r => r.id)).Nodup

/-- Every stored car carries exactly the rounded average rating and count
of its current reviews. -/
def carAggCorrect (db : DB) : Prop :=
  ∀ p ∈ db.cars,
    p.2.rating = carAvgRating db p.1
    ∧ p.2.numberOfReviews = (reviewsFor db p.1).length

/-- Review operations whose update (when it is one) does not move the
review to another car. -/
def Op.isSafeReviewOp : Op → Prop
  | Op.reviewCreate _ _ => True
  | Op.reviewUpdate _ _ u => u.carId = none
  | Op.reviewDelete _ _ => True
  | _ => False

theorem carAvgRating_eq_of_reviewsFor_eq {db1 db2 : DB} {x : Nat}
    (h : reviewsFor db1 x = reviewsFor db2 x) :
    carAvgRating db1 x = carAvgRating db2 x := by
  unfold carAvgRating
  rw [h]

/-- Recomputing car `c` restores aggregate correctness when the state
changed only in `c`'s own reviews and the cars were not touched. -/
theorem carAggCorrect_recompute (d : DB) {db1 : DB} {c : Nat}
    (hcars : db1.cars = d.cars)
    (hrev : ∀ x, x ≠ c → reviewsFor db1 x = reviewsFor d x)
    (hagg : carAggCorrect d) :
    carAggCorrect (getAverageRating db1 c) := by
  unfold getAverageRating
  cases hc : findCar db1 c with
  | none =>
    intro p hp
    have hpc : p.1 ≠ c := by
      intro he
      unfold findCar at hc
      rw [Option.map_eq_none'] at hc
      rw [List.find?_eq_none] at hc
      exact hc p hp (by simp [he])
    rw [hcars] at hp
    have hx := hagg p hp
    have hr := hrev p.1 hpc
    exact ⟨hx.1.trans (carAvgRating_eq_of_reviewsFor_eq hr).symm,
      hx.2.trans (congrArg List.length hr).symm⟩
  | some car =>
    intro p hp
    unfold updateCar at hp
    simp only [List.mem_map] at hp
    obtain ⟨q, hq, hpq⟩ := hp
    by_cases hqc : (q.1 == c) = true
    · rw [if_pos hqc] at hpq
      rw [← hpq]
      exact ⟨rfl, rfl⟩
    · rw [if_neg hqc] at hpq
      rw [← hpq]
      have hqne : q.1 ≠ c := by simpa using hqc
      rw [hcars] at hq
      have hx := hagg q hq
      have hr : reviewsFor db1 q.1 = reviewsFor d q.1 := hrev q.1 hqne
      exact ⟨hx.1.trans (carAvgRating_eq_of_reviewsFor_eq hr).symm,
        hx.2.trans (congrArg List.length hr).symm⟩

theorem le_foldr_max (l : List Nat) : ∀ n ∈ l, n ≤ l.foldr max 0 := by
  induction l with
  | nil => intro n h; simp at h
  | cons a t ih =>
    intro n h
    rcases List.mem_cons.1 h with rfl | h2
    · exact le_max_left _ _
    · exact le_trans (ih n h2) (le_max_right _ _)

theorem freshReviewId_not_mem (db : DB) :
    freshReviewId db ∉ db.reviews.map (fun r => r.id) := by
  intro hmem
  have h := le_foldr_max _ _ hmem
  unfold freshReviewId at h
  omega

/-- Removing all reviews with a given id commutes with filtering for a
car none of the removed reviews belongs to. -/
theorem filter_erase_comm (l : List Review) (rid x : Nat)
    (hall : ∀ y ∈ l, y.id = rid → (y.carId == x) = false) :
    (l.filter (fun y => y.id != rid)).filter (fun y => y.carId == x)
      = l.filter (fun y => y.carId == x) := by
  induction l with
  | nil => rfl
  | cons a t ih =>
    have ht : ∀ y ∈ t, y.id = rid → (y.carId == x) = false :=
      fun y hy => hall y (List.mem_cons_of_mem a hy)
    by_cases ha : a.id = rid
    · have hcar := hall a (List.mem_cons_self a t) ha
      have hne : (a.id != rid) = false := by simp [ha]
      simp only [List.filter_cons, hne, hcar, Bool.false_eq_true, if_false]
      exact ih ht
    · have hne : (a.id != rid) = true := by simp [ha]
      simp only [List.filter_cons, hne, if_true]
      by_cases hax : (a.carId == x) = true
      · simp only [List.filter_cons, hax, if_true]
        rw [ih ht]
      · simp only [List.filter_cons, hax, Bool.false_eq_true, if_false]
        exact ih ht

/-- Replacing the reviews with a given id by a review of the same car
commutes with filtering for a different car. -/
theorem filter_update_comm (l : List Review) (rid x : Nat) (w : Review)
    (hx : (w.carId == x) = false)
    (hall : ∀ y ∈ l, y.id = rid → (y.carId == x) = false) :
    (l.map (fun y => if y.id == rid then w else y)).filter (fun y => y.carId == x)
      = l.filter (fun y => y.carId == x) := by
  induction l with
  | nil => rfl
  | cons a t ih =>
    have ht : ∀ y ∈ t, y.id = rid → (y.carId == x) = false :=
      fun y hy => hall y (List.mem_cons_of_mem a hy)
    by_cases ha : (a.id == rid) = true
    · have hcar := hall a (List.mem_cons_self a t) (by simpa using ha)
      simp only [List.map_cons, if_pos ha, List.filter_cons, hx, hcar,
        Bool.false_eq_true, if_false]
      exact ih ht
    · simp only [List.map_cons, if_neg ha, List.filter_cons]
      by_cases hax : (a.carId == x) = true
      · simp only [hax, if_true]
        rw [ih ht]
      · simp only [hax, Bool.false_eq_true, if_false]
        exact ih ht

theorem aggStep_createReview (db : DB) (u : Caller) (req : ReviewReq)
    (hnd : reviewIdsNodup db) (hagg : carAggCorrect db) :
    reviewIdsNodup ((createReview db u req).2)
    ∧ carAggCorrect ((createReview db u req).2) := by
  unfold createReview
  cases findCar db req.carId with
  | none => exact ⟨hnd, hagg⟩
  | some car =>
    dsimp only
    cases db.reviews.find? (fun r => r.userId == u.id && r.carId == req.carId) with
    | some r0 => exact ⟨hnd, hagg⟩
    | none =>
      dsimp only
      constructor
      · unfold reviewIdsNodup
        rw [getAverageRating_reviews]
        dsimp only
        rw [List.map_append]
        refine (List.nodup_append).2 ⟨hnd, by simp, ?_⟩
        intro a ha hb
        simp only [List.map_cons, List.map_nil, List.mem_singleton] at hb
        rw [hb] at ha
        exact freshReviewId_not_mem db ha
      · refine carAggCorrect_recompute db ?_ ?_ hagg
        · rfl
        intro x hx
        unfold reviewsFor
        dsimp only
        rw [List.filter_append]
        have hone : List.filter (fun rr : Review => rr.carId == x)
            [{ id := freshReviewId db, userId := u.id, carId := req.carId
               rating := req.rating }] = [] := by
          simp only [List.filter_cons, List.filter_nil]
          rw [if_neg]
          simp only [beq_iff_eq]
          exact fun h => hx (h.symm)
        rw [hone, List.append_nil]

theorem aggStep_deleteReview (db : DB) (caller : Caller) (rid : Nat)
    (hnd : reviewIdsNodup db) (hagg : carAggCorrect db) :
    reviewIdsNodup ((deleteReview db caller rid).2)
    ∧ carAggCorrect ((deleteReview db caller rid).2) := by
  unfold deleteReview
  cases hf : db.reviews.find? (fun r => r.id == rid) with
  | none => exact ⟨hnd, hagg⟩
  | some r =>
    dsimp only
    by_cases hc : r.userId ≠ caller.id ∧ caller.role ≠ Role.admin
    · rw [if_pos hc]
      exact ⟨hnd, hagg⟩
    · rw [if_neg hc]
      have hrmem : r ∈ db.reviews := List.mem_of_find?_eq_some hf
      have hrid : r.id = rid := by simpa using List.find?_some hf
      have hall : ∀ y ∈ db.reviews, y.id = rid → y = r := by
        intro y hy hyid
        exact List.inj_on_of_nodup_map hnd hy hrmem (by rw [hyid, hrid])
      constructor
      · unfold reviewIdsNodup
        rw [getAverageRating_reviews]
        dsimp only
        exact List.Nodup.sublist (List.Sublist.map _ (List.filter_sublist _)) hnd
      · dsimp only
        refine carAggCorrect_recompute db ?_ ?_ hagg
        · rfl
        intro x hx
        unfold reviewsFor
        dsimp only
        apply filter_erase_comm
        intro y hy hyid
        rw [hall y hy hyid]
        simp only [beq_eq_false_iff_ne]
        exact fun h => hx h.symm

theorem aggStep_updateReview (db : DB) (caller : Caller) (rid : Nat)
    (v : ReviewUpdate) (hsafe : v.carId = none)
    (hnd : reviewIdsNodup db) (hagg : carAggCorrect db) :
    reviewIdsNodup ((updateReview db caller rid v).2)
    ∧ carAggCorrect ((updateReview db caller rid v).2) := by
  unfold updateReview
  cases hf : db.reviews.find? (fun r => r.id == rid) with
  | none => exact ⟨hnd, hagg⟩
  | some r =>
    dsimp only
    by_cases hc : r.userId ≠ caller.id ∧ caller.role ≠ Role.admin
    · rw [if_pos hc]
      exact ⟨hnd, hagg⟩
    · rw [if_neg hc]
      have hrmem : r ∈ db.reviews := List.mem_of_find?_eq_some hf
      have hrid : r.id = rid := by simpa using List.find?_some hf
      have hall : ∀ y ∈ db.reviews, y.id = rid → y = r := by
        intro y hy hyid
        exact List.inj_on_of_nodup_map hnd hy hrmem (by rw [hyid, hrid])
      have hcarId : (applyReviewUpdate r v).carId = r.carId := by
        unfold applyReviewUpdate
        rw [hsafe]
        rfl
      constructor
      · unfold reviewIdsNodup
        rw [getAverageRating_reviews]
        dsimp only
        rw [List.map_map]
        have hfun : ((fun rr : Review => rr.id)
              ∘ fun y => if y.id == rid then applyReviewUpdate r v else y)
            = fun rr : Review => rr.id := by
          funext y
          simp only [Function.comp]
          by_cases hy : (y.id == rid) = true
          · rw [if_pos hy]
            have hy2 : y.id = rid := by simpa using hy
            show (applyReviewUpdate r v).id = y.id
            rw [show (applyReviewUpdate r v).id = r.id from rfl, hrid, hy2]
          · rw [if_neg hy]
        rw [hfun]
        exact hnd
      · dsimp only
        refine carAggCorrect_recompute db ?_ ?_ hagg
        · rfl
        intro x hx
        unfold reviewsFor
        dsimp only
        apply filter_update_comm
        · simp only [beq_eq_false_iff_ne]
          exact fun h => hx h.symm
        · intro y hy hyid
          rw [hall y hy hyid]
          simp only [beq_eq_false_iff_ne]
          intro h
          rw [← hcarId] at h
          exact hx h.symm

/-- One safe review operation preserves review-id uniqueness and aggregate
correctness. -/
theorem aggStep (op : Op) (db : DB) (hsafe : op.isSafeReviewOp)
    (hnd : reviewIdsNodup db) (hagg : carAggCorrect db) :
    reviewIdsNodup (op.apply db) ∧ carAggCorrect (op.apply db) := by
  cases op with
  | reviewCreate u req => exact aggStep_createReview db u req hnd hagg
  | reviewUpdate caller rid v => exact aggStep_updateReview db caller rid v hsafe hnd hagg
  | reviewDelete caller rid => exact aggStep_deleteReview db caller rid hnd hagg
  | createCtrl req newId => exact hsafe.elim
  | createRoute req newId => exact hsafe.elim
  | cancel caller bookingId => exact hsafe.elim
  | approve bookingId => exact hsafe.elim
  | reject bookingId => exact hsafe.elim
  | update caller bookingId st now => exact hsafe.elim
  | deleteFirst caller bookingId => exact hsafe.elim
  | deleteSecond bookingId => exact hsafe.elim
  | emergencyDelete bookingId => exact hsafe.elim
  | carSetStock carId newStock => exact hsafe.elim
  | carToggle carId => exact hsafe.elim

/-- Safe review-operation sequences preserve id-uniqueness together with
aggregate correctness. -/
theorem carAggCorrect_runOps : ∀ (ops : List Op) (db : DB),
    reviewIdsNodup db → carAggCorrect db →
    (∀ op ∈ ops, op.isSafeReviewOp) →
    carAggCorrect (runOps ops db)
  | [], _, _, hagg, _ => hagg
  | op :: t, db, hnd, hagg, hops =>
    have h1 := aggStep op db (hops op (List.mem_cons_self op t)) hnd hagg
    carAggCorrect_runOps t (op.apply db) h1.1 h1.2
      (fun o ho => hops o (List.mem_cons_of_mem op ho))

/-- Claim C5 (amended): starting from a state with pairwise-distinct
review ids and correct per-car aggregates, after any sequence of review
create, delete and carId-preserving update operations, every car's stored
rating equals the mean of its remaining reviews rounded to one decimal (0
when there are none) and its numberOfReviews equals their count.  (An
update that moves a review to a different car recomputes only the new car
and leaves the old car's aggregates stale; see the counterexample.) -/
theorem reviewAggregates_correct (ops : List Op) (db : DB)
    (hnd : reviewIdsNodup db) (hagg : carAggCorrect db)
    (hops : ∀ op ∈ ops, op.isSafeReviewOp) :
    carAggCorrect (runOps ops db) :=
  carAggCorrect_runOps ops db hnd hagg hops

/-- `Math.round(n * 10) / 10` on a whole number is that number. -/
theorem round1_intCast (n : Int) : round1 ((n : ℚ)) = (n : ℚ) := by
  unfold round1
  have h : ⌊((n : ℚ)) * 10 + 1 / 2⌋ = 10 * n := by
    rw [Int.floor_eq_iff]
    constructor
    · push_cast
      linarith
    · push_cast
      linarith
  rw [h]
  push_cast
  ring

/-- Two cars with consistent aggregates: car 1 has one rating-4 review by
user 7, car 2 has none. -/
def exCarA : Car :=
  { pricePerDay := 50, availability := true, stock := 3, rating := 4
    numberOfReviews := 1 }

def exCarB : Car :=
  { pricePerDay := 60, availability := true, stock := 2, rating := 0
    numberOfReviews := 0 }

def exReview5 : Review := { id := 1, userId := 7, carId := 1, rating := 4 }

def exDb5 : DB :=
  { cars := [(1, exCarA), (2, exCarB)], bookings := [], reviews := [exReview5]
    services := [] }

/-- The update that moves user 7's review from car 1 to car 2. -/
def exMoveOp : Op := Op.reviewUpdate exOwner 1 ⟨none, some 2⟩

/-- Claim C5 counterexample: from a fully consistent state, an owner
update that changes the review's carId leaves car 1 with
`numberOfReviews = 1` although it has no reviews left — only the new car
is recomputed. -/
theorem reviewAggregates_counterexample :
    carAggCorrect exDb5
    ∧ (findCar (runOps [exMoveOp] exDb5) 1).map (fun c => c.numberOfReviews)
        = some 1
    ∧ (reviewsFor (runOps [exMoveOp] exDb5) 1).length = 0 := by
  refine ⟨?_, rfl, rfl⟩
  intro p hp
  simp only [exDb5, List.mem_cons, List.mem_singleton, List.not_mem_nil,
    or_false] at hp
  rcases hp with rfl | rfl
  · constructor
    · show (4 : ℚ) = carAvgRating exDb5 1
      have hrf : reviewsFor exDb5 1 = [exReview5] := rfl
      have hs : sumRatings [exReview5] = 4 := rfl
      have h5 := round1_intCast 4
      push_cast at h5
      norm_num [carAvgRating, hrf, hs, h5]
    · rfl
  · constructor
    · show (0 : ℚ) = carAvgRating exDb5 2
      have hrf : reviewsFor exDb5 2 = [] := rfl
      norm_num [carAvgRating, hrf]
    · rfl

/-- Witness for `reviewAggregates_correct`: create, rating-update and
delete of a review on car 1 keep its aggregates correct. -/
def exOpsW : List Op :=
  [Op.reviewCreate exOwner ⟨1, 4⟩, Op.reviewUpdate exOwner 1 ⟨some 5, none⟩,
   Op.reviewDelete exOwner 1]

theorem reviewAggregates_correct_witness :
    reviewIdsNodup exDb0 ∧ carAggCorrect exDb0
    ∧ carAggCorrect (runOps exOpsW exDb0) := by
  have h1 : reviewIdsNodup exDb0 := by
    unfold reviewIdsNodup
    decide
  have h2 : carAggCorrect exDb0 := by
    intro p hp
    simp only [exDb0, List.mem_singleton, List.not_mem_nil, List.mem_cons,
      or_false] at hp
    rw [hp]
    refine ⟨?_, rfl⟩
    norm_num [carAvgRating, reviewsFor, exDb0, exCar0, List.filter]
  have h3 : ∀ op ∈ exOpsW, op.isSafeReviewOp := by
    intro op hop
    simp only [exOpsW, List.mem_cons, List.mem_singleton, List.not_mem_nil,
      or_false] at hop
    rcases hop with rfl | rfl | rfl
    · trivial
    · rfl
    · trivial
  exact ⟨h1, h2, reviewAggregates_correct exOpsW exDb0 h1 h2 h3⟩

end RentCar
